import Mathlib

/-!
Shallow embedding of `tls/handshake.py`, a manual TLS 1.2 handshake test
driver (class `TlsHandshake` plus the x509 helper functions), together with
theorems settling the specification's claims about it.

Conventions of the embedding:
* byte strings on the wire are `List Nat`;
* Python text strings (SNI names, ticket data, certificate values) are `String`;
* the network is an oracle (`Resp`, `Env`) supplying the server's responses;
* exceptions are `Except` errors; `socket.error` caught inside `send_recv`
  is re-raised as `TlsErr.protocolSock` (a `TLSProtocolError`), while raw
  `sendall` calls outside any `try` raise the uncaught `TlsErr.sockError`.
-/

namespace TlsHandshakeSpec

/-- Wire payloads: byte strings modelled as lists of naturals. -/
abbrev Bytes := List Nat

/-! ### Record transport: the chunked send path of `send_recv`

When `self.chunk` is set, `send_recv` serializes the packet to its final wire
form (`tls_to_raw(...)` when `self.sock.ctx.must_encrypt`, else `str(pkt)`),
slices it as `[__s[i:i + n] for i in xrange(0, len(__s), n)]`, writes each
slice with `self.sock._s.sendall(chunk)` followed by `sleep`, and finally
registers the packet once in the crypto transcript via
`self.sock.tls_ctx.insert(...)`. -/

/-- Final wire form of a packet: encrypted serialization when write
encryption is active, plain serialization otherwise. -/
def wire_form (must_encrypt : Bool) (enc : Bytes → Bytes) (pkt : Bytes) : Bytes :=
  if must_encrypt then enc pkt else pkt

/-- Consecutive byte windows of size `n`, as produced by the slicing
`[__s[i:i + n] for i in xrange(0, len(__s), n)]`. Chunk size `0` cannot
occur (a zero `self.chunk` is falsy, so the unchunked branch runs); that
unreachable case returns `[]`. -/
def chunks : Nat → Bytes → List Bytes
  | _, [] => []
  | 0, _ :: _ => []
  | n + 1, a :: s => (a :: s.take n) :: chunks (n + 1) (s.drop n)
termination_by _ s => s.length
decreasing_by simp; omega

/-- Observable actions of the chunked send path. -/
inductive SendEv where
  | write (w : Bytes)
  | insertTranscript
deriving DecidableEq, Repr

/-- Event trace of the chunked branch of `send_recv`: one socket write per
chunk, then a single transcript registration. -/
def send_recv_chunked_writes (chunk : Nat) (must_encrypt : Bool)
    (enc : Bytes → Bytes) (pkt : Bytes) : List SendEv :=
  (chunks chunk (wire_form must_encrypt enc pkt)).map SendEv.write
    ++ [SendEv.insertTranscript]

theorem chunks_flatten (n : Nat) (s : Bytes) : (chunks (n + 1) s).flatten = s := by
  match s with
  | [] => simp [chunks]
  | a :: t =>
    have ih := chunks_flatten n (t.drop n)
    simp only [chunks, List.flatten_cons]
    rw [ih]
    simp [List.take_append_drop]
termination_by s.length
decreasing_by simp; omega

theorem chunks_length (n : Nat) (s : Bytes) :
    (chunks (n + 1) s).length = (s.length + n) / (n + 1) := by
  match s with
  | [] =>
    simp only [chunks, List.length_nil, Nat.zero_add]
    exact (Nat.div_eq_of_lt (by omega)).symm
  | a :: t =>
    have ih := chunks_length n (t.drop n)
    simp only [chunks, List.length_cons, List.length_drop] at ih ⊢
    rw [ih]
    rcases Nat.le_total n t.length with h | h
    · rw [Nat.sub_add_cancel h]
      have h2 : t.length + 1 + n = t.length + (n + 1) := by omega
      rw [h2, Nat.add_div_right _ (Nat.succ_pos n)]
    · rw [Nat.sub_eq_zero_of_le h]
      have h1 : (0 + n) / (n + 1) = 0 := Nat.div_eq_of_lt (by omega)
      have h2 : t.length + 1 + n = t.length + (n + 1) := by omega
      have h3 : (t.length + (n + 1)) / (n + 1) = t.length / (n + 1) + 1 :=
        Nat.add_div_right _ (Nat.succ_pos n)
      have h4 : t.length / (n + 1) = 0 := Nat.div_eq_of_lt (by omega)
      rw [h1, h2, h3, h4]
termination_by s.length
decreasing_by simp; omega

/-- C3: for every chunk size `C ≥ 1` and every message whose final wire form
(encrypted when write encryption is active) has length `L ≥ 1`, the chunked
send path performs exactly `⌈L/C⌉` socket writes whose concatenation equals
the unchunked serialization byte-for-byte, and registers the message in the
crypto transcript exactly once, after all the writes. -/
theorem chunked_send_spec (C : Nat) (must_encrypt : Bool) (enc : Bytes → Bytes)
    (pkt : Bytes) (hC : 1 ≤ C) (hL : 1 ≤ (wire_form must_encrypt enc pkt).length) :
    (chunks C (wire_form must_encrypt enc pkt)).length
        = ((wire_form must_encrypt enc pkt).length + C - 1) / C ∧
    (chunks C (wire_form must_encrypt enc pkt)).flatten
        = wire_form must_encrypt enc pkt ∧
    send_recv_chunked_writes C must_encrypt enc pkt
        = (chunks C (wire_form must_encrypt enc pkt)).map SendEv.write
            ++ [SendEv.insertTranscript] := by
  obtain ⟨n, rfl⟩ : ∃ n, C = n + 1 := ⟨C - 1, by omega⟩
  refine ⟨?_, chunks_flatten n _, rfl⟩
  have he : (wire_form must_encrypt enc pkt).length + (n + 1) - 1
      = (wire_form must_encrypt enc pkt).length + n := by omega
  rw [chunks_length, he]

/-- Closed instance of `chunked_send_spec`: chunk size 2, a 5-byte plaintext
message, hence 3 writes re-assembling to the message. -/
theorem chunked_send_spec_witness :
    1 ≤ 2 ∧ 1 ≤ (wire_form false id [10, 11, 12, 13, 14]).length ∧
    (chunks 2 (wire_form false id [10, 11, 12, 13, 14])).length
        = ((wire_form false id [10, 11, 12, 13, 14]).length + 2 - 1) / 2 ∧
    (chunks 2 (wire_form false id [10, 11, 12, 13, 14])).flatten
        = wire_form false id [10, 11, 12, 13, 14] := by
  have h := chunked_send_spec 2 false id [10, 11, 12, 13, 14]
    (by decide) (by decide)
  exact ⟨by decide, by decide, h.1, h.2.1⟩

/-! ### Certificate field extraction: `x509_check_cn` and `x509_check_issuer`

Both helpers walk `cert.tbsCertificate.issuer` and inspect `f.rdn[0]` of each
field `f`; each field is therefore modelled by its first RDN component: an
attribute `type` (the OID, as its dotted string) and a `value`. Matching is
`str(f.rdn[0].value).endswith(expected)`; if no field carries the wanted OID
the helper raises `Error(...)`. -/

/-- Python `str.endswith`: suffix comparison on the character sequence. -/
def endswith (s suffix : String) : Bool :=
  suffix.data.isSuffixOf s.data

/-- Python `str.startswith`: the corresponding prefix comparison. -/
def startswith (s pre : String) : Bool :=
  pre.data.isPrefixOf s.data

/-- First RDN component of one distinguished-name field (`f.rdn[0]`). -/
structure RDNAttr where
  type : String
  value : String
deriving DecidableEq, Repr

/-- The part of the parsed certificate the helpers read
(`cert.tbsCertificate.issuer`). -/
structure TBSCert where
  issuer : List RDNAttr
deriving DecidableEq, Repr

/-- Parsed x509 certificate as seen by the helpers. -/
structure Cert where
  tbsCertificate : TBSCert
deriving DecidableEq, Repr

/-- `x509_check_cn(cert, cn)`: scan the issuer fields for OID `2.5.4.3`
(CommonName); at the first match return whether its value ends with `cn`;
raise `Error("Certificate has no CommonName")` when no field matches. -/
def x509_check_cn (cert : Cert) (cn : String) : Except String Bool :=
  go cert.tbsCertificate.issuer
where
  go : List RDNAttr → Except String Bool
    | [] => .error "Certificate has no CommonName"
    | f :: fs => if f.type = "2.5.4.3" then .ok (endswith f.value cn) else go fs

/-- `x509_check_issuer(cert, issuer)`: the same scan for OID `2.5.4.10`
(Issuer OrganizationName). -/
def x509_check_issuer (cert : Cert) (issuer : String) : Except String Bool :=
  go cert.tbsCertificate.issuer
where
  go : List RDNAttr → Except String Bool
    | [] => .error "Certificate has no Issuer OrganizationName"
    | f :: fs => if f.type = "2.5.4.10" then .ok (endswith f.value issuer) else go fs

theorem x509_check_cn_go_found (cn : String) (l : List RDNAttr) (f : RDNAttr)
    (h : l.find? (fun a => a.type == "2.5.4.3") = some f) :
    x509_check_cn.go cn l = .ok (endswith f.value cn) := by
  induction l with
  | nil => simp at h
  | cons g gs ih =>
    by_cases hg : g.type = "2.5.4.3"
    · rw [List.find?_cons_of_pos _ (by simp [hg])] at h
      obtain rfl := Option.some.inj h
      simp [x509_check_cn.go, hg]
    · rw [List.find?_cons_of_neg _ (by simp [hg])] at h
      simp [x509_check_cn.go, hg, ih h]

theorem x509_check_cn_go_absent (cn : String) (l : List RDNAttr)
    (h : l.find? (fun a => a.type == "2.5.4.3") = none) :
    x509_check_cn.go cn l = .error "Certificate has no CommonName" := by
  induction l with
  | nil => simp [x509_check_cn.go]
  | cons g gs ih =>
    by_cases hg : g.type = "2.5.4.3"
    · rw [List.find?_cons_of_pos _ (by simp [hg])] at h
      exact absurd h (by simp)
    · rw [List.find?_cons_of_neg _ (by simp [hg])] at h
      simp [x509_check_cn.go, hg, ih h]

theorem x509_check_issuer_go_found (org : String) (l : List RDNAttr) (f : RDNAttr)
    (h : l.find? (fun a => a.type == "2.5.4.10") = some f) :
    x509_check_issuer.go org l = .ok (endswith f.value org) := by
  induction l with
  | nil => simp at h
  | cons g gs ih =>
    by_cases hg : g.type = "2.5.4.10"
    · rw [List.find?_cons_of_pos _ (by simp [hg])] at h
      obtain rfl := Option.some.inj h
      simp [x509_check_issuer.go, hg]
    · rw [List.find?_cons_of_neg _ (by simp [hg])] at h
      simp [x509_check_issuer.go, hg, ih h]

theorem x509_check_issuer_go_absent (org : String) (l : List RDNAttr)
    (h : l.find? (fun a => a.type == "2.5.4.10") = none) :
    x509_check_issuer.go org l = .error "Certificate has no Issuer OrganizationName" := by
  induction l with
  | nil => simp [x509_check_issuer.go]
  | cons g gs ih =>
    by_cases hg : g.type = "2.5.4.10"
    · rw [List.find?_cons_of_pos _ (by simp [hg])] at h
      exact absurd h (by simp)
    · rw [List.find?_cons_of_neg _ (by simp [hg])] at h
      simp [x509_check_issuer.go, hg, ih h]

/-- C7: if some issuer field's first RDN component carries OID `2.5.4.3`,
`x509_check_cn` returns the suffix comparison of the first such component's
value against the expected string; with no such component it raises a
distinct error instead of returning `False`. The same holds for
`x509_check_issuer` with OID `2.5.4.10`. -/
theorem x509_check_spec (cert : Cert) (cn org : String) :
    (∀ f, cert.tbsCertificate.issuer.find? (fun a => a.type == "2.5.4.3") = some f →
        x509_check_cn cert cn = .ok (endswith f.value cn)) ∧
    (cert.tbsCertificate.issuer.find? (fun a => a.type == "2.5.4.3") = none →
        x509_check_cn cert cn = .error "Certificate has no CommonName") ∧
    (∀ f, cert.tbsCertificate.issuer.find? (fun a => a.type == "2.5.4.10") = some f →
        x509_check_issuer cert org = .ok (endswith f.value org)) ∧
    (cert.tbsCertificate.issuer.find? (fun a => a.type == "2.5.4.10") = none →
        x509_check_issuer cert org = .error "Certificate has no Issuer OrganizationName") :=
  ⟨fun f h => x509_check_cn_go_found cn _ f h,
   fun h => x509_check_cn_go_absent cn _ h,
   fun f h => x509_check_issuer_go_found org _ f h,
   fun h => x509_check_issuer_go_absent org _ h⟩

/-- Certificate with a country, a CommonName and an OrganizationName field. -/
def certEx : Cert :=
  ⟨⟨[⟨"2.5.4.6", "US"⟩, ⟨"2.5.4.3", "www.example.com"⟩,
     ⟨"2.5.4.10", "Example Org"⟩]⟩⟩

/-- Certificate with neither a CommonName nor an OrganizationName field. -/
def certBare : Cert := ⟨⟨[⟨"2.5.4.6", "US"⟩]⟩⟩

/-- Closed instance of `x509_check_spec`: on `certEx` the CN check is a true
suffix match and the issuer check a failed one; on `certBare` both raise. -/
theorem x509_check_spec_witness :
    x509_check_cn certEx "example.com" = .ok true ∧
    x509_check_issuer certEx "Other" = .ok false ∧
    x509_check_cn certBare "example.com" = .error "Certificate has no CommonName" ∧
    x509_check_issuer certBare "Example" = .error "Certificate has no Issuer OrganizationName" := by
  have h1 := x509_check_spec certEx "example.com" "Other"
  have h2 := x509_check_spec certBare "example.com" "Example"
  exact ⟨h1.1 ⟨"2.5.4.3", "www.example.com"⟩ (by decide),
         h1.2.2.1 ⟨"2.5.4.10", "Example Org"⟩ (by decide),
         h2.2.1 (by decide), h2.2.2.2 (by decide)⟩

/-! ### Message builder state and `extra_extensions`

`TlsHandshake.__init__` sets the option fields (`sni`, `exts`, `sign_algs`,
`elliptic_curves`, `ciphers`, `compressions`, `renegotiation_info`, `inject`,
`ticket_data` via `set_ticket_data('ticket_data')`, `session_id`), and
`extra_extensions` appends the assembled extensions to `self.exts` and
returns that list. Scapy extension objects are modelled by the `Ext`
inductive; caller-supplied override lists (`sign_algs`, ...) are arbitrary
`List Ext`. -/

/-- One ClientHello extension object as built in `extra_extensions` and
`_do_12_hs`. `raw t` is a bare `TLSExtension(type=t)` (used for the
Encrypt-then-MAC probe `0x16`, TrustedCA `0x3` and the bad type `0xf0`). -/
inductive Ext where
  | raw (type : Nat)
  | ecPointsFormat
  | sni (names : List String)
  | signatureAlgorithms
  | supportedGroups
  | renegotiationInfo (data : String)
  | certStatusRequest
  | alpn (protocols : List String)
  | maxFragmentLength (fragment_length : Nat)
  | certificateURL (urls : List String)
  | heartbeat (mode : Nat)
  | sessionTicket (data : String)
deriving DecidableEq, Repr

/-- `TLSHeartbeatMode.PEER_NOT_ALLOWED_TO_SEND` (RFC 6520 value 2). -/
def heartbeatPeerNotAllowed : Nat := 2

/-- Injection state: the `self.inject` countdown plus the position already
consumed from the fuzzer stream (the model of `next(fuzzer)`). -/
structure InjSt where
  inject : Option Nat
  pos : Nat
deriving DecidableEq, Repr

/-- Mutable state of a `TlsHandshake` instance (the fields the embedded
operations read or write; transport tuning such as `addr`, `io_to`, `chunk`
and `sleep_time` lives in the record-transport model above).
`sock = none` means no socket object; `some false` an open socket;
`some true` a closed one. -/
structure HS where
  sni : List String
  exts : List Ext
  sign_algs : List Ext
  elliptic_curves : List Ext
  ciphers : List Nat
  compressions : List Nat
  renegotiation_info : List Ext
  inj : InjSt
  ticket_data : Option String
  session_id : String
  sock : Option Bool
  cert : Option String
  http_resp : Option String

/-- Argument of `set_ticket_data`: `None`, a plain string, or a scapy
`TLSSessionTicket` object (whose `.ticket` field is taken). -/
inductive TicketInput where
  | null
  | str (s : String)
  | ticketObj (ticket : String)
deriving DecidableEq, Repr

/-- `TlsHandshake.set_ticket_data`. -/
def set_ticket_data (data : TicketInput) (st : HS) : HS :=
  match data with
  | .null => { st with ticket_data := none }
  | .str s => { st with ticket_data := some s }
  | .ticketObj t => { st with ticket_data := some t }

/-- State of a fresh `TlsHandshake()` after `__init__` (which ends with
`set_ticket_data('ticket_data')` and `session_id = ''`). -/
def initHS : HS :=
  { sni := ["tempesta-tech.com"], exts := [], sign_algs := [],
    elliptic_curves := [], ciphers := [], compressions := [],
    renegotiation_info := [], inj := ⟨none, 0⟩,
    ticket_data := some "ticket_data", session_id := "",
    sock := none, cert := none, http_resp := none }

/-- The fixed battery of probing extensions appended unconditionally by
`extra_extensions` (TrustedCA `0x3`, certificate-status-request, bad type
`0xf0`, ALPN `http/1.1` + `http/2.0`, max-fragment-length 4096,
certificate-URL, heartbeat peer-not-allowed-to-send). -/
def default_battery : List Ext :=
  [ Ext.raw 0x3,
    Ext.certStatusRequest,
    Ext.raw 0xf0,
    Ext.alpn ["http/1.1", "http/2.0"],
    Ext.maxFragmentLength 0x04,
    Ext.certificateURL ["http://www.tempesta-tech.com"],
    Ext.heartbeat heartbeatPeerNotAllowed ]

/-- `TlsHandshake.extra_extensions`: successive `self.exts += ...` appends
(SNI when names are configured; signature algorithms, supported groups and
renegotiation info, custom or default; the fixed battery; the session ticket
unless `ticket_data is None`), returning the mutated `self.exts`. -/
def extra_extensions (st : HS) : List Ext × HS :=
  let e0 := st.exts ++ (if st.sni.isEmpty then [] else [Ext.sni st.sni])
  let e1 := e0 ++ (if st.sign_algs.isEmpty then [Ext.signatureAlgorithms] else st.sign_algs)
  let e2 := e1 ++ (if st.elliptic_curves.isEmpty then [Ext.supportedGroups] else st.elliptic_curves)
  let e3 := e2 ++ (if st.renegotiation_info.isEmpty
      then [Ext.renegotiationInfo ""] else st.renegotiation_info)
  let e4 := e3 ++ default_battery
  let e5 := e4 ++ (match st.ticket_data with
      | none => []
      | some d => [Ext.sessionTicket d])
  (e5, { st with exts := e5 })

/-- The extensions one `extra_extensions` call appends (everything after the
current `self.exts`). -/
def extension_round (st : HS) : List Ext :=
  (if st.sni.isEmpty then [] else [Ext.sni st.sni])
    ++ (if st.sign_algs.isEmpty then [Ext.signatureAlgorithms] else st.sign_algs)
    ++ (if st.elliptic_curves.isEmpty then [Ext.supportedGroups] else st.elliptic_curves)
    ++ (if st.renegotiation_info.isEmpty
        then [Ext.renegotiationInfo ""] else st.renegotiation_info)
    ++ default_battery
    ++ (match st.ticket_data with
        | none => []
        | some d => [Ext.sessionTicket d])

/-- Extension list of the ClientHello built by `_do_12_hs` and
`_do_12_hs_resume`: the two probe extensions (`TLSExtension(type=0x16)` for
Encrypt-then-MAC and ECPointsFormat) followed by `extra_extensions()`. -/
def client_hello_extensions (st : HS) : List Ext × HS :=
  let p := extra_extensions st
  (Ext.raw 0x16 :: Ext.ecPointsFormat :: p.1, p.2)

theorem extra_extensions_eq (st : HS) :
    extra_extensions st = (st.exts ++ extension_round st,
      { st with exts := st.exts ++ extension_round st }) := by
  simp [extra_extensions, extension_round]

theorem extension_round_exts_invariant (st : HS) (e : List Ext) :
    extension_round { st with exts := e } = extension_round st := rfl

/-- Iterated calls of `extra_extensions` on the same instance. -/
def extra_extensions_iter : Nat → HS → HS
  | 0, st => st
  | k + 1, st => extra_extensions_iter k (extra_extensions st).2

theorem extra_extensions_iter_exts (k : Nat) (st : HS) :
    (extra_extensions_iter k st).exts
      = st.exts ++ (List.replicate k (extension_round st)).flatten := by
  induction k generalizing st with
  | zero => simp [extra_extensions_iter]
  | succ k ih =>
    rw [extra_extensions_iter, ih, extra_extensions_eq]
    simp [extension_round_exts_invariant, List.replicate_succ]

/-- Recognizer for session-ticket extension objects. -/
def is_session_ticket : Ext → Bool
  | .sessionTicket _ => true
  | _ => false

theorem filter_ticket_nil (l : List Ext) (h : ∀ s, Ext.sessionTicket s ∉ l) :
    l.filter is_session_ticket = [] := by
  refine List.filter_eq_nil_iff.mpr fun a ha => ?_
  cases a with
  | sessionTicket s => exact absurd ha (h s)
  | raw t => simp [is_session_ticket]
  | ecPointsFormat => simp [is_session_ticket]
  | sni names => simp [is_session_ticket]
  | signatureAlgorithms => simp [is_session_ticket]
  | supportedGroups => simp [is_session_ticket]
  | renegotiationInfo d => simp [is_session_ticket]
  | certStatusRequest => simp [is_session_ticket]
  | alpn ps => simp [is_session_ticket]
  | maxFragmentLength fl => simp [is_session_ticket]
  | certificateURL us => simp [is_session_ticket]
  | heartbeat m => simp [is_session_ticket]

/-- C4: on a fresh instance (empty `exts`, override lists that do not smuggle
in ticket extensions of their own), the ClientHello built after
`set_ticket_data(data)` carries no session-ticket extension when `data` is
`None`, one with a zero-length payload when `data` is `''`, and one whose
payload is exactly the caller-supplied bytes otherwise (including the
`TLSSessionTicket`-object form, whose `.ticket` field is used). -/
theorem ticket_modes_spec (st : HS) (d : TicketInput) (h : st.exts = [])
    (h1 : ∀ s, Ext.sessionTicket s ∉ st.sign_algs)
    (h2 : ∀ s, Ext.sessionTicket s ∉ st.elliptic_curves)
    (h3 : ∀ s, Ext.sessionTicket s ∉ st.renegotiation_info) :
    (client_hello_extensions (set_ticket_data d st)).1.filter is_session_ticket
      = match d with
        | .null => []
        | .str s => [Ext.sessionTicket s]
        | .ticketObj t => [Ext.sessionTicket t] := by
  have hsa : st.sign_algs.filter is_session_ticket = [] := filter_ticket_nil _ h1
  have hec : st.elliptic_curves.filter is_session_ticket = [] := filter_ticket_nil _ h2
  have hri : st.renegotiation_info.filter is_session_ticket = [] := filter_ticket_nil _ h3
  cases d <;>
    simp [client_hello_extensions, extra_extensions_eq, extension_round,
      set_ticket_data, default_battery, h, List.filter_append, hsa, hec, hri,
      is_session_ticket, List.filter_cons, apply_ite (List.filter is_session_ticket)]

/-- Closed instance of `ticket_modes_spec` on the fresh `TlsHandshake()`
state: the three ticket modes of `set_ticket_data` produce no ticket
extension, an empty-payload one, and an exact-payload one. -/
theorem ticket_modes_spec_witness :
    (client_hello_extensions (set_ticket_data .null initHS)).1.filter is_session_ticket
        = [] ∧
    (client_hello_extensions (set_ticket_data (.str "") initHS)).1.filter is_session_ticket
        = [Ext.sessionTicket ""] ∧
    (client_hello_extensions (set_ticket_data (.str "abc") initHS)).1.filter is_session_ticket
        = [Ext.sessionTicket "abc"] := by
  have hn : ∀ s, Ext.sessionTicket s ∉ ([] : List Ext) := by simp
  exact ⟨ticket_modes_spec initHS .null rfl hn hn hn,
         ticket_modes_spec initHS (.str "") rfl hn hn hn,
         ticket_modes_spec initHS (.str "abc") rfl hn hn hn⟩

/-- C8: on a fresh instance (empty `exts`) the ClientHello's extension list
is, in this fixed order: the Encrypt-then-MAC probe `0x16`, ECPointFormats,
SNI when server names are configured, signature-algorithms (custom or
default), supported-groups (custom or default), renegotiation-info (custom
or empty-payload default), the fixed battery (TrustedCA `0x3`,
certificate-status-request, bad type `0xf0`, ALPN `http/1.1` + `http/2.0`,
max-fragment-length, certificate-URL, heartbeat peer-not-allowed-to-send),
and finally the session ticket unless disabled. -/
theorem client_hello_ext_order (st : HS) (h : st.exts = []) :
    (client_hello_extensions st).1
      = [Ext.raw 0x16, Ext.ecPointsFormat]
        ++ (if st.sni.isEmpty then [] else [Ext.sni st.sni])
        ++ (if st.sign_algs.isEmpty then [Ext.signatureAlgorithms] else st.sign_algs)
        ++ (if st.elliptic_curves.isEmpty then [Ext.supportedGroups] else st.elliptic_curves)
        ++ (if st.renegotiation_info.isEmpty
            then [Ext.renegotiationInfo ""] else st.renegotiation_info)
        ++ [Ext.raw 0x3, Ext.certStatusRequest, Ext.raw 0xf0,
            Ext.alpn ["http/1.1", "http/2.0"], Ext.maxFragmentLength 0x04,
            Ext.certificateURL ["http://www.tempesta-tech.com"],
            Ext.heartbeat heartbeatPeerNotAllowed]
        ++ (match st.ticket_data with
            | none => []
            | some d => [Ext.sessionTicket d]) := by
  simp [client_hello_extensions, extra_extensions_eq, h, extension_round,
    default_battery]

/-- Closed instance of `client_hello_ext_order` at the fresh `TlsHandshake()`
state, with every default filled in. -/
theorem client_hello_ext_order_witness :
    initHS.exts = [] ∧
    (client_hello_extensions initHS).1
      = [Ext.raw 0x16, Ext.ecPointsFormat, Ext.sni ["tempesta-tech.com"],
         Ext.signatureAlgorithms, Ext.supportedGroups, Ext.renegotiationInfo "",
         Ext.raw 0x3, Ext.certStatusRequest, Ext.raw 0xf0,
         Ext.alpn ["http/1.1", "http/2.0"], Ext.maxFragmentLength 0x04,
         Ext.certificateURL ["http://www.tempesta-tech.com"],
         Ext.heartbeat heartbeatPeerNotAllowed, Ext.sessionTicket "ticket_data"] := by
  refine ⟨rfl, ?_⟩
  rw [client_hello_ext_order initHS rfl]
  rfl

/-- C10: `extra_extensions` appends to the instance's persistent `exts` list
and returns that same list; after `k` calls starting from an empty `exts`
the list is `k` concatenated copies of the per-call round (each containing
the default battery once), so it is not idempotent, and the ClientHello of a
second handshake run on the same instance carries the round twice. -/
theorem extra_extensions_accumulates (st : HS) (k : Nat) :
    ((extra_extensions st).1 = (extra_extensions st).2.exts) ∧
    (st.exts = [] →
      (extra_extensions_iter k st).exts
        = (List.replicate k (extension_round st)).flatten) ∧
    (st.exts = [] →
      (client_hello_extensions (extra_extensions st).2).1
        = Ext.raw 0x16 :: Ext.ecPointsFormat
            :: (extension_round st ++ extension_round st)) := by
  refine ⟨rfl, fun h => ?_, fun h => ?_⟩
  · rw [extra_extensions_iter_exts, h, List.nil_append]
  · rw [client_hello_extensions, extra_extensions_eq]
    simp [extra_extensions_eq, extension_round_exts_invariant, h]

/-- Closed instance of `extra_extensions_accumulates` at the fresh state:
two calls leave two copies of the round, and the second ClientHello carries
the battery twice. -/
theorem extra_extensions_accumulates_witness :
    initHS.exts = [] ∧
    (extra_extensions_iter 2 initHS).exts
      = extension_round initHS ++ extension_round initHS ∧
    (client_hello_extensions (extra_extensions initHS).2).1
      = Ext.raw 0x16 :: Ext.ecPointsFormat
          :: (extension_round initHS ++ extension_round initHS) := by
  have h := extra_extensions_accumulates initHS 2
  refine ⟨rfl, ?_, h.2.2 rfl⟩
  rw [h.2.1 rfl]
  simp [List.replicate_succ]

/-! ### Fault injector: `inject_bad` and the scheduled-send pattern

`inject_bad(fuzzer)` is a no-op when `self.inject is None` or no fuzzer is
supplied; while the countdown is positive it decrements and returns; once it
reaches zero it writes `next(fuzzer)` to the socket (the countdown stays at
zero, and the scheduled legitimate send that follows still happens). The
fuzzer is a lazy stream, modelled as `Nat → Bytes` with a consumption
position. The orchestrators repeat `self.inject_bad(fuzzer)` immediately
before every scheduled send; `runSends` captures that pattern for a list of
scheduled messages, recording the wire trace. -/

/-- One wire event at the injection level: a corrupt payload written by
`inject_bad`, or a scheduled legitimate message. -/
inductive WireEv where
  | corrupt (payload : Bytes)
  | legit (msg : Nat)
deriving DecidableEq, Repr

/-- `TlsHandshake.inject_bad`. -/
def inject_bad (fz : Option (Nat → Bytes)) (st : InjSt) : List WireEv × InjSt :=
  match st.inject, fz with
  | none, _ => ([], st)
  | some _, none => ([], st)
  | some (n + 1), some _ => ([], { st with inject := some n })
  | some 0, some f => ([WireEv.corrupt (f st.pos)], { st with pos := st.pos + 1 })

/-- The orchestrators' send pattern: before every scheduled message,
`inject_bad` runs; then the message itself goes to the wire. -/
def runSends (fz : Option (Nat → Bytes)) : List Nat → InjSt → List WireEv × InjSt
  | [], st => ([], st)
  | m :: ms, st =>
    let p := inject_bad fz st
    let q := runSends fz ms p.2
    (p.1 ++ WireEv.legit m :: q.1, q.2)

/-- Wire trace from the point the countdown is exhausted: every remaining
scheduled send is preceded by one corrupt payload pulled from the stream. -/
def corruptPhase (f : Nat → Bytes) : Nat → List Nat → List WireEv
  | _, [] => []
  | p, m :: ms => WireEv.corrupt (f p) :: WireEv.legit m :: corruptPhase f (p + 1) ms

theorem runSends_exhausted (f : Nat → Bytes) (msgs : List Nat) (p : Nat) :
    runSends (some f) msgs ⟨some 0, p⟩
      = (corruptPhase f p msgs, ⟨some 0, p + msgs.length⟩) := by
  induction msgs generalizing p with
  | nil => simp [runSends, corruptPhase]
  | cons m ms ih =>
    simp [runSends, inject_bad, corruptPhase, ih (p + 1)]
    omega

theorem runSends_countdown (f : Nat → Bytes) (msgs : List Nat) (N p : Nat)
    (h : N < msgs.length) :
    runSends (some f) msgs ⟨some N, p⟩
      = ((msgs.take N).map WireEv.legit ++ corruptPhase f p (msgs.drop N),
         ⟨some 0, p + (msgs.length - N)⟩) := by
  induction msgs generalizing N p with
  | nil => simp at h
  | cons m ms ih =>
    cases N with
    | zero => simpa using runSends_exhausted f (m :: ms) p
    | succ n =>
      have hn : n < ms.length := by simpa using h
      simp [runSends, inject_bad, ih n p hn]

/-- C2 (amended): for a countdown `N` and `M > N` scheduled sends, the first
`N` scheduled sends go out unmodified with nothing injected; each of the
`(N+1)`-th through `M`-th scheduled sends is *preceded* by one corrupt
payload drawn in order from the stream (so `M - N` elements are consumed in
total), and every scheduled send is still transmitted. -/
theorem inject_countdown_trace (f : Nat → Bytes) (msgs : List Nat) (N : Nat)
    (h : N < msgs.length) :
    runSends (some f) msgs ⟨some N, 0⟩
      = ((msgs.take N).map WireEv.legit ++ corruptPhase f 0 (msgs.drop N),
         ⟨some 0, msgs.length - N⟩) := by
  simpa using runSends_countdown f msgs N 0 h

/-- Closed instance of `inject_countdown_trace`: countdown 1 over three
scheduled sends; the first send is clean, the second and third are each
preceded by a corrupt payload, and two stream elements are consumed. -/
theorem inject_countdown_trace_witness :
    1 < 3 ∧
    runSends (some fun i => [100 + i]) [7, 8, 9] ⟨some 1, 0⟩
      = ([WireEv.legit 7, WireEv.corrupt [100], WireEv.legit 8,
          WireEv.corrupt [101], WireEv.legit 9], ⟨some 0, 2⟩) := by
  refine ⟨by decide, ?_⟩
  rw [inject_countdown_trace (fun i => [100 + i]) [7, 8, 9] 1 (by decide)]
  rfl

/-- C2 (counterexample to the claim as stated): countdown `N = 0` with two
scheduled sends. The claim predicts the first scheduled send is *replaced*
by a corrupt payload and exactly one stream element is consumed; the code
transmits the first send right after the injected payload, injects again
before the second send, and consumes two elements. -/
theorem inject_zero_not_replacing :
    (runSends (some fun i => [100 + i]) [1, 2] ⟨some 0, 0⟩).1
        = [WireEv.corrupt [100], WireEv.legit 1,
           WireEv.corrupt [101], WireEv.legit 2] ∧
    WireEv.legit 1 ∈ (runSends (some fun i => [100 + i]) [1, 2] ⟨some 0, 0⟩).1 ∧
    (runSends (some fun i => [100 + i]) [1, 2] ⟨some 0, 0⟩).2.pos ≠ 1 := by
  exact ⟨rfl, by decide, by decide⟩

/-! ### Handshake orchestrators: `_do_12_hs`, `_do_12_hs_resume`,
`_do_12_req`, `do_12`, `do_12_resume`

The network is an oracle: each round trip of `send_recv` is answered by a
`Resp` describing what the server sent back (or that the socket failed), and
an `Env` bundles the oracle answers for one run. Exceptions are `Except`
errors: `TLSProtocolError` raised for a non-WARNING alert or wrapping a
caught `socket.error` inside `send_recv`, an uncaught `socket.error` from a
bare `sendall`, and `AssertionError` from violated `assert`s. -/

/-- A TLS alert layer: severity level and description code
(`TLSAlertLevel.WARNING = 1`). -/
structure Alert where
  level : Nat
  description : Nat
deriving DecidableEq, Repr

/-- `tls.TLSAlertLevel.WARNING`. -/
def warningLevel : Nat := 1

/-- Oracle answer for one `send_recv` round trip: whether the socket raised
`socket.error`, and otherwise the layers of the reassembled response the
code inspects (alert, certificate data, ChangeCipherSpec, record payload). -/
structure Resp where
  sockErr : Bool
  alert : Option Alert
  certData : Option String
  hasCCS : Bool
  record : Option String
deriving DecidableEq, Repr

/-- Exceptions escaping the embedded operations. -/
inductive TlsErr where
  | protocolAlert (level description : Nat)
  | protocolSock
  | sockError
  | assertFail
deriving DecidableEq, Repr

/-- Oracle for one full run: whether `connect` succeeds, the response to the
ClientHello (`resp1`), whether the bare `sendall`s succeed (the WARNING
alert probe and the CKE/CCS — resp. CCS — transmission), the response to
the Finished message (`resp2`), and the response to the HTTP request
(`resp3`). -/
structure Env where
  connOk : Bool
  resp1 : Resp
  warnAlertSendOk : Bool
  ccsSendOk : Bool
  resp2 : Resp
  resp3 : Resp
deriving DecidableEq, Repr

/-- `TlsHandshake.send_recv` at the protocol level: a `socket.error` during
the round trip is re-raised as `TLSProtocolError`; a response holding an
alert whose level is not WARNING raises `TLSProtocolError` carrying the
alert's level and description; otherwise the response is returned. -/
def send_recv (r : Resp) : Except TlsErr Resp :=
  if r.sockErr then .error .protocolSock
  else
    match r.alert with
    | some a =>
        if a.level = warningLevel then .ok r
        else .error (.protocolAlert a.level a.description)
    | none => .ok r

/-- Outcome of `conn_estab`: the `assert not self.sock` precondition fired,
`connect` raised `socket.error`, or the connection is up. -/
inductive ConnRes where
  | assertFail
  | connFail
  | ok
deriving DecidableEq, Repr

/-- `TlsHandshake.conn_estab`: asserts no socket is open yet, creates the
socket object, then connects (so the socket object exists even when
`connect` fails). -/
def conn_estab (connOk : Bool) (st : HS) : ConnRes × HS :=
  if st.sock.isSome then (.assertFail, st)
  else ((if connOk then .ok else .connFail), { st with sock := some false })

/-- `TlsHandshake.socket_ctx`: run the body, then close the socket on every
exit path (normal return or exception). -/
def with_socket_ctx (body : HS → Except TlsErr Bool × HS) (st : HS) :
    Except TlsErr Bool × HS :=
  let p := body st
  (p.1, { p.2 with sock := p.2.sock.map fun _ => true })

/-- `TlsHandshake._do_12_hs`: full-handshake state machine. `conn_estab`
failure returns `False`; the ClientHello (with `client_hello_extensions`) is
sent through `send_recv` after an `inject_bad` check; a response without a
certificate layer returns `False`; then the WARNING alert probe, the
CKE/CCS transmission and the Finished round trip follow, any uncaught
exception propagating. -/
def hs_do_12 (env : Env) (fz : Option (Nat → Bytes)) (st : HS) :
    Except TlsErr Bool × HS :=
  match conn_estab env.connOk st with
  | (.assertFail, st1) => (.error .assertFail, st1)
  | (.connFail, st1) => (.ok false, st1)
  | (.ok, st1) =>
    let st2 := (client_hello_extensions st1).2
    let st3 := { st2 with inj := (inject_bad fz st2.inj).2 }
    match send_recv env.resp1 with
    | .error e => (.error e, st3)
    | .ok resp =>
      match resp.certData with
      | none => (.ok false, st3)
      | some cd =>
        let st4 := { st3 with cert := some cd }
        if cd = "" then (.error .assertFail, st4)
        else if env.warnAlertSendOk = false then (.error .sockError, st4)
        else
          let st5 := { st4 with inj := (inject_bad fz st4.inj).2 }
          if env.ccsSendOk = false then (.error .sockError, st5)
          else
            let st6 := { st5 with inj := (inject_bad fz st5.inj).2 }
            match send_recv env.resp2 with
            | .error e => (.error e, st6)
            | .ok _ => (.ok true, st6)

/-- `TlsHandshake._do_12_hs_resume`: abbreviated-handshake state machine.
After `conn_estab`, the session is resumed (`resume_session` is pure crypto
and not modelled), `set_ticket_data(ticket)` runs and the session id becomes
32 bytes of `'\x38'`; a ClientHello response without a ChangeCipherSpec
layer returns `False`; then the CCS transmission and the Finished round trip
(whose response is read but otherwise unused) follow. -/
def hs_do_12_resume (env : Env) (ticket : TicketInput)
    (fz : Option (Nat → Bytes)) (st : HS) : Except TlsErr Bool × HS :=
  match conn_estab env.connOk st with
  | (.assertFail, st1) => (.error .assertFail, st1)
  | (.connFail, st1) => (.ok false, st1)
  | (.ok, st1) =>
    let st2 := set_ticket_data ticket st1
    let st3 := { st2 with session_id := String.mk (List.replicate 32 '8') }
    let st4 := (client_hello_extensions st3).2
    let st5 := { st4 with inj := (inject_bad fz st4.inj).2 }
    match send_recv env.resp1 with
    | .error e => (.error e, st5)
    | .ok resp =>
      if resp.hasCCS = false then (.ok false, st5)
      else
        let st6 := { st5 with inj := (inject_bad fz st5.inj).2 }
        if env.ccsSendOk = false then (.error .sockError, st6)
        else
          match send_recv env.resp2 with
          | .error e => (.error e, st6)
          | .ok _ => (.ok true, st6)

/-- `GOOD_RESP`. -/
def GOOD_RESP : String := "HTTP/1.1 200"

/-- `TlsHandshake._do_12_req`: send one HTTP request over the channel; a
response with a record layer stores it and compares its prefix against
`GOOD_RESP`, anything else is failure. -/
def hs_do_12_req (env : Env) (fz : Option (Nat → Bytes)) (st : HS) :
    Except TlsErr Bool × HS :=
  let st1 := { st with inj := (inject_bad fz st.inj).2 }
  match send_recv env.resp3 with
  | .error e => (.error e, st1)
  | .ok resp =>
    match resp.record with
    | some data =>
        (.ok (startswith data GOOD_RESP), { st1 with http_resp := some data })
    | none => (.ok false, st1)

/-- `TlsHandshake.do_12`: under `socket_ctx`, run the full handshake and, on
success, the HTTP exercise. -/
def do_12 (env : Env) (fz : Option (Nat → Bytes)) (st : HS) :
    Except TlsErr Bool × HS :=
  with_socket_ctx
    (fun s =>
      match hs_do_12 env fz s with
      | (.error e, s1) => (.error e, s1)
      | (.ok false, s1) => (.ok false, s1)
      | (.ok true, s1) => hs_do_12_req env fz s1)
    st

/-- `TlsHandshake.do_12_resume`: under `socket_ctx`, run the abbreviated
handshake and, on success, the HTTP exercise (the master secret only feeds
`resume_session` and is not modelled). -/
def do_12_resume (env : Env) (ticket : TicketInput)
    (fz : Option (Nat → Bytes)) (st : HS) : Except TlsErr Bool × HS :=
  with_socket_ctx
    (fun s =>
      match hs_do_12_resume env ticket fz s with
      | (.error e, s1) => (.error e, s1)
      | (.ok false, s1) => (.ok false, s1)
      | (.ok true, s1) => hs_do_12_req env fz s1)
    st

theorem conn_estab_sock (connOk : Bool) (st : HS) :
    ((conn_estab connOk st).2).sock.isSome = true := by
  unfold conn_estab
  by_cases h : st.sock.isSome <;> simp [h]

theorem extra_extensions_sock (st : HS) :
    ((extra_extensions st).2).sock = st.sock := rfl

theorem client_hello_extensions_sock (st : HS) :
    ((client_hello_extensions st).2).sock = st.sock := rfl

theorem hs_do_12_sock (env : Env) (fz : Option (Nat → Bytes)) (st : HS) :
    ((hs_do_12 env fz st).2).sock.isSome = true := by
  have hc := conn_estab_sock env.connOk st
  unfold hs_do_12
  split <;> rename_i st1 heq <;> rw [heq] at hc <;> simp only at hc
  · simpa using hc
  · simpa using hc
  · simp only []
    split
    · simpa [client_hello_extensions_sock] using hc
    · split
      · simpa [client_hello_extensions_sock] using hc
      · split_ifs <;>
          first
            | simpa [client_hello_extensions_sock] using hc
            | split <;> simpa [client_hello_extensions_sock] using hc

theorem set_ticket_data_sock (d : TicketInput) (st : HS) :
    (set_ticket_data d st).sock = st.sock := by
  cases d <;> rfl

theorem hs_do_12_resume_sock (env : Env) (tk : TicketInput)
    (fz : Option (Nat → Bytes)) (st : HS) :
    ((hs_do_12_resume env tk fz st).2).sock.isSome = true := by
  have hc := conn_estab_sock env.connOk st
  unfold hs_do_12_resume
  split <;> rename_i st1 heq <;> rw [heq] at hc <;> simp only at hc
  · simpa using hc
  · simpa using hc
  · simp only []
    split
    · simpa [client_hello_extensions_sock, set_ticket_data_sock] using hc
    · split_ifs <;>
        first
          | simpa [client_hello_extensions_sock, set_ticket_data_sock] using hc
          | split <;> simpa [client_hello_extensions_sock, set_ticket_data_sock] using hc

theorem hs_do_12_req_sock (env : Env) (fz : Option (Nat → Bytes)) (st : HS) :
    ((hs_do_12_req env fz st).2).sock = st.sock := by
  unfold hs_do_12_req
  split
  · rfl
  · split <;> rfl

/-- Closing lemma for `socket_ctx`: when the body leaves a socket object in
the state, the guard closes it. -/
theorem with_socket_ctx_sock (body : HS → Except TlsErr Bool × HS) (st : HS)
    (h : ((body st).2).sock.isSome = true) :
    ((with_socket_ctx body st).2).sock = some true := by
  unfold with_socket_ctx
  obtain ⟨b, hb⟩ := Option.isSome_iff_exists.mp h
  simp [hb]

theorem do_12_sock_closed (env : Env) (fz : Option (Nat → Bytes)) (st : HS) :
    (do_12 env fz st).2.sock = some true := by
  unfold do_12
  apply with_socket_ctx_sock
  have hh := hs_do_12_sock env fz st
  split <;> rename_i s1 heq <;> rw [heq] at hh <;> simp only at hh
  · exact hh
  · exact hh
  · rw [hs_do_12_req_sock]
    exact hh

theorem do_12_resume_sock_closed (env : Env) (tk : TicketInput)
    (fz : Option (Nat → Bytes)) (st : HS) :
    (do_12_resume env tk fz st).2.sock = some true := by
  unfold do_12_resume
  apply with_socket_ctx_sock
  have hh := hs_do_12_resume_sock env tk fz st
  split <;> rename_i s1 heq <;> rw [heq] at hh <;> simp only at hh
  · exact hh
  · exact hh
  · rw [hs_do_12_req_sock]
    exact hh

/-- C6: every execution of `do_12` or `do_12_resume` — returning `True`,
returning `False`, or terminating on an uncaught exception, including when
connection establishment fails — leaves the instance's socket closed:
`socket_ctx` closes it on every exit path, and `conn_estab` creates the
socket object before connecting, so even a failed connect leaves a socket
for the guard to close. -/
theorem socket_closed_on_all_paths (env : Env) (tk : TicketInput)
    (fz : Option (Nat → Bytes)) (st : HS) :
    (do_12 env fz st).2.sock = some true ∧
    (do_12_resume env tk fz st).2.sock = some true :=
  ⟨do_12_sock_closed env fz st, do_12_resume_sock_closed env tk fz st⟩

/-- Response whose alerts, if any, are all WARNING-level
(Python: every `TLSAlert` layer passes the `level != WARNING` check). -/
def warn_only (r : Resp) : Bool :=
  match r.alert with
  | some a => a.level == warningLevel
  | none => true

theorem send_recv_warn_ok (r : Resp) (hse : r.sockErr = false)
    (hw : warn_only r = true) : send_recv r = .ok r := by
  unfold send_recv
  rw [hse]
  cases hal : r.alert with
  | none => simp
  | some a =>
    rw [warn_only, hal] at hw
    simp only [beq_iff_eq] at hw
    simp [hw]

/-- An all-fields-empty oracle response. -/
def respNone : Resp :=
  { sockErr := false, alert := none, certData := none, hasCCS := false,
    record := none }

/-- Oracle of a run whose ClientHello is answered with a FATAL (level 2)
alert, description 40 (handshake_failure). -/
def envFatal : Env :=
  { connOk := true,
    resp1 := { sockErr := false, alert := some ⟨2, 40⟩, certData := none,
               hasCCS := false, record := none },
    warnAlertSendOk := true, ccsSendOk := true,
    resp2 := respNone, resp3 := respNone }

/-- C1 (counterexample to the claim as stated): when the server answers the
ClientHello with a FATAL alert, `do_12` does not return `False` (nor `True`)
— it terminates with the raised `TLSProtocolError`. -/
theorem do_12_fatal_alert_not_false :
    (do_12 envFatal none initHS).1 = .error (.protocolAlert 2 40) ∧
    (do_12 envFatal none initHS).1 ≠ .ok false ∧
    (do_12 envFatal none initHS).1 ≠ .ok true := by
  have h : (do_12 envFatal none initHS).1 = .error (.protocolAlert 2 40) := rfl
  exact ⟨h, by rw [h]; exact fun hc => Except.noConfusion hc,
         by rw [h]; exact fun hc => Except.noConfusion hc⟩

theorem send_recv_fatal (r : Resp) (a : Alert) (hse : r.sockErr = false)
    (hal : r.alert = some a) (hlv : a.level ≠ warningLevel) :
    send_recv r = .error (.protocolAlert a.level a.description) := by
  unfold send_recv
  rw [hse, hal]
  simp [hlv]

/-- C1 (amended): whenever a round trip of a public operation — the
ClientHello exchange, the Finished exchange, or the HTTP exercise, in
`do_12` or in `do_12_resume` — receives a response carrying an alert whose
level is not WARNING (the round trip itself not having failed at socket
level, and the run having reached that round trip), the operation terminates
by raising `TLSProtocolError` carrying the alert's level and description —
it does not return a boolean — and the socket is still closed on the way
out. -/
theorem do_12_fatal_alert_raises (env : Env) (tk : TicketInput)
    (fz : Option (Nat → Bytes)) (st : HS) (a : Alert)
    (hsock : st.sock = none) (hconn : env.connOk = true)
    (hlv : a.level ≠ warningLevel) :
    (env.resp1.sockErr = false → env.resp1.alert = some a →
      (do_12 env fz st).1 = .error (.protocolAlert a.level a.description) ∧
      (do_12_resume env tk fz st).1 = .error (.protocolAlert a.level a.description)) ∧
    (env.resp1.sockErr = false → warn_only env.resp1 = true →
     env.warnAlertSendOk = true → env.ccsSendOk = true →
     env.resp2.sockErr = false → env.resp2.alert = some a →
      (∀ cd, env.resp1.certData = some cd → cd ≠ "" →
        (do_12 env fz st).1 = .error (.protocolAlert a.level a.description)) ∧
      (env.resp1.hasCCS = true →
        (do_12_resume env tk fz st).1 = .error (.protocolAlert a.level a.description))) ∧
    (env.resp1.sockErr = false → warn_only env.resp1 = true →
     env.warnAlertSendOk = true → env.ccsSendOk = true →
     env.resp2.sockErr = false → warn_only env.resp2 = true →
     env.resp3.sockErr = false → env.resp3.alert = some a →
      (∀ cd, env.resp1.certData = some cd → cd ≠ "" →
        (do_12 env fz st).1 = .error (.protocolAlert a.level a.description)) ∧
      (env.resp1.hasCCS = true →
        (do_12_resume env tk fz st).1 = .error (.protocolAlert a.level a.description))) ∧
    (do_12 env fz st).2.sock = some true ∧
    (do_12_resume env tk fz st).2.sock = some true := by
  refine ⟨?_, ?_, ?_, do_12_sock_closed env fz st,
    do_12_resume_sock_closed env tk fz st⟩
  · intro hse1 hal1
    have h1 := send_recv_fatal env.resp1 a hse1 hal1 hlv
    constructor
    · unfold do_12 with_socket_ctx hs_do_12 conn_estab
      simp [hsock, hconn, h1]
    · unfold do_12_resume with_socket_ctx hs_do_12_resume conn_estab
      simp [hsock, hconn, h1]
  · intro hse1 hw1 hwok hcok hse2 hal2
    have hok1 := send_recv_warn_ok env.resp1 hse1 hw1
    have herr2 := send_recv_fatal env.resp2 a hse2 hal2 hlv
    constructor
    · intro cd hcd hcdne
      unfold do_12 with_socket_ctx hs_do_12 conn_estab
      simp [hsock, hconn, hok1, hcd, hcdne, hwok, hcok, herr2]
    · intro hccs
      unfold do_12_resume with_socket_ctx hs_do_12_resume conn_estab
      simp [hsock, hconn, hok1, hccs, hcok, herr2]
  · intro hse1 hw1 hwok hcok hse2 hw2 hse3 hal3
    have hok1 := send_recv_warn_ok env.resp1 hse1 hw1
    have hok2 := send_recv_warn_ok env.resp2 hse2 hw2
    have herr3 := send_recv_fatal env.resp3 a hse3 hal3 hlv
    constructor
    · intro cd hcd hcdne
      unfold do_12 with_socket_ctx hs_do_12 hs_do_12_req conn_estab
      simp [hsock, hconn, hok1, hcd, hcdne, hwok, hcok, hok2, herr3]
    · intro hccs
      unfold do_12_resume with_socket_ctx hs_do_12_resume hs_do_12_req conn_estab
      simp [hsock, hconn, hok1, hccs, hcok, hok2, herr3]

/-- Oracle of a run whose ClientHello exchange succeeds (certificate and
CCS present) but whose Finished exchange is answered with a FATAL (level 2)
alert, description 40. -/
def envFatalFin : Env :=
  { connOk := true,
    resp1 := { sockErr := false, alert := none, certData := some "CERT",
               hasCCS := true, record := none },
    warnAlertSendOk := true, ccsSendOk := true,
    resp2 := { sockErr := false, alert := some ⟨2, 40⟩, certData := none,
               hasCCS := false, record := none },
    resp3 := respNone }

/-- Oracle of a run whose handshake succeeds but whose HTTP exercise is
answered with a FATAL (level 2) alert, description 80. -/
def envFatalReq : Env :=
  { connOk := true,
    resp1 := { sockErr := false, alert := none, certData := some "CERT",
               hasCCS := true, record := none },
    warnAlertSendOk := true, ccsSendOk := true,
    resp2 := respNone,
    resp3 := { sockErr := false, alert := some ⟨2, 80⟩, certData := none,
               hasCCS := false, record := none } }

/-- Closed instance of `do_12_fatal_alert_raises`: a FATAL alert in the
ClientHello response (`envFatal`), in the Finished response (`envFatalFin`)
and in the HTTP response (`envFatalReq`) each make both `do_12` and
`do_12_resume` raise with the alert's level and description, the socket
closed. -/
theorem do_12_fatal_alert_raises_witness :
    initHS.sock = none ∧
    (do_12 envFatal none initHS).1 = .error (.protocolAlert 2 40) ∧
    (do_12_resume envFatal (.str "t") none initHS).1 = .error (.protocolAlert 2 40) ∧
    (do_12 envFatalFin none initHS).1 = .error (.protocolAlert 2 40) ∧
    (do_12_resume envFatalFin (.str "t") none initHS).1 = .error (.protocolAlert 2 40) ∧
    (do_12 envFatalReq none initHS).1 = .error (.protocolAlert 2 80) ∧
    (do_12_resume envFatalReq (.str "t") none initHS).1 = .error (.protocolAlert 2 80) ∧
    (do_12 envFatal none initHS).2.sock = some true ∧
    (do_12_resume envFatal (.str "t") none initHS).2.sock = some true := by
  have h1 := do_12_fatal_alert_raises envFatal (.str "t") none initHS ⟨2, 40⟩
    rfl rfl (by decide)
  have h2 := do_12_fatal_alert_raises envFatalFin (.str "t") none initHS ⟨2, 40⟩
    rfl rfl (by decide)
  have h3 := do_12_fatal_alert_raises envFatalReq (.str "t") none initHS ⟨2, 80⟩
    rfl rfl (by decide)
  refine ⟨rfl, (h1.1 rfl rfl).1, (h1.1 rfl rfl).2,
    (h2.2.1 rfl rfl rfl rfl rfl rfl).1 "CERT" rfl (by decide),
    (h2.2.1 rfl rfl rfl rfl rfl rfl).2 rfl,
    (h3.2.2.1 rfl rfl rfl rfl rfl rfl rfl rfl).1 "CERT" rfl (by decide),
    (h3.2.2.1 rfl rfl rfl rfl rfl rfl rfl rfl).2 rfl,
    h1.2.2.2.1, h1.2.2.2.2⟩

/-- Oracle of a full-handshake run whose ClientHello response carries a
FATAL alert and no certificate layer. -/
def envNoCertFatal : Env :=
  { connOk := true,
    resp1 := { sockErr := false, alert := some ⟨2, 50⟩, certData := none,
               hasCCS := false, record := none },
    warnAlertSendOk := true, ccsSendOk := true,
    resp2 := respNone, resp3 := respNone }

/-- C9 (counterexample to the claim as stated): a ClientHello response that
lacks the certificate layer but carries a FATAL alert makes `do_12` raise
`TLSProtocolError` instead of returning `False`. -/
theorem missing_cert_fatal_alert_raises :
    envNoCertFatal.resp1.certData = none ∧
    (do_12 envNoCertFatal none initHS).1 = .error (.protocolAlert 2 50) ∧
    (do_12 envNoCertFatal none initHS).1 ≠ .ok false := by
  have h : (do_12 envNoCertFatal none initHS).1 = .error (.protocolAlert 2 50) := rfl
  exact ⟨rfl, h, by rw [h]; exact fun hc => Except.noConfusion hc⟩

/-- C9 (amended): when the round trip for the ClientHello raises nothing (no
socket failure, alerts at most WARNING), a full-handshake response without a
certificate layer makes `do_12` return `False`, and a resumption response
without a ChangeCipherSpec layer makes `do_12_resume` return `False` —
without raising. -/
theorem structural_mismatch_false (env : Env) (tk : TicketInput)
    (fz : Option (Nat → Bytes)) (st : HS)
    (hsock : st.sock = none) (hconn : env.connOk = true)
    (hse : env.resp1.sockErr = false) (hwarn : warn_only env.resp1 = true) :
    (env.resp1.certData = none → (do_12 env fz st).1 = .ok false) ∧
    (env.resp1.hasCCS = false → (do_12_resume env tk fz st).1 = .ok false) := by
  have h1 := send_recv_warn_ok env.resp1 hse hwarn
  constructor
  · intro hcd
    unfold do_12 with_socket_ctx hs_do_12 conn_estab
    simp [hsock, hconn, h1, hcd]
  · intro hccs
    unfold do_12_resume with_socket_ctx hs_do_12_resume conn_estab
    simp [hsock, hconn, h1, hccs]

/-- Oracle of a run whose ClientHello response has neither a certificate nor
a ChangeCipherSpec layer (and no alert at all). -/
def envMiss : Env :=
  { connOk := true, resp1 := respNone, warnAlertSendOk := true,
    ccsSendOk := true, resp2 := respNone, resp3 := respNone }

/-- Closed instance of `structural_mismatch_false` at `envMiss`. -/
theorem structural_mismatch_false_witness :
    envMiss.resp1.certData = none ∧ envMiss.resp1.hasCCS = false ∧
    (do_12 envMiss none initHS).1 = .ok false ∧
    (do_12_resume envMiss (.str "tkt") none initHS).1 = .ok false := by
  have h := structural_mismatch_false envMiss (.str "tkt") none initHS
    rfl rfl rfl rfl
  exact ⟨rfl, rfl, h.1 rfl, h.2 rfl⟩

/-- Remove the alert layer from a response, leaving everything else. -/
def strip_alert (r : Resp) : Resp := { r with alert := none }

/-- The same run with every alert layer removed from the server's
responses. -/
def strip_alerts (env : Env) : Env :=
  { env with resp1 := strip_alert env.resp1, resp2 := strip_alert env.resp2,
             resp3 := strip_alert env.resp3 }

theorem send_recv_strip (r : Resp) (hw : warn_only r = true) :
    send_recv (strip_alert r) = (send_recv r).map strip_alert := by
  obtain ⟨se, al, cd, ccs, rec⟩ := r
  cases se
  · rcases al with _ | a
    · rfl
    · have hl : a.level = warningLevel := by simpa [warn_only] using hw
      simp [send_recv, strip_alert, Except.map, hl]
  · rfl

theorem hs_do_12_strip (env : Env) (fz : Option (Nat → Bytes)) (st : HS)
    (h1 : warn_only env.resp1 = true) (h2 : warn_only env.resp2 = true) :
    hs_do_12 (strip_alerts env) fz st = hs_do_12 env fz st := by
  unfold hs_do_12
  have e1 : (strip_alerts env).connOk = env.connOk := rfl
  have e2 : (strip_alerts env).resp1 = strip_alert env.resp1 := rfl
  have e3 : (strip_alerts env).warnAlertSendOk = env.warnAlertSendOk := rfl
  have e4 : (strip_alerts env).ccsSendOk = env.ccsSendOk := rfl
  have e5 : (strip_alerts env).resp2 = strip_alert env.resp2 := rfl
  rw [e1, e2, e3, e4, e5, send_recv_strip env.resp1 h1,
    send_recv_strip env.resp2 h2]
  cases hr1 : send_recv env.resp1 with
  | error e => rfl
  | ok resp =>
    cases hr2 : send_recv env.resp2 with
    | error e2 => simp [Except.map, strip_alert]
    | ok resp2 => simp [Except.map, strip_alert]

theorem hs_do_12_resume_strip (env : Env) (tk : TicketInput)
    (fz : Option (Nat → Bytes)) (st : HS)
    (h1 : warn_only env.resp1 = true) (h2 : warn_only env.resp2 = true) :
    hs_do_12_resume (strip_alerts env) tk fz st = hs_do_12_resume env tk fz st := by
  unfold hs_do_12_resume
  have e1 : (strip_alerts env).connOk = env.connOk := rfl
  have e2 : (strip_alerts env).resp1 = strip_alert env.resp1 := rfl
  have e4 : (strip_alerts env).ccsSendOk = env.ccsSendOk := rfl
  have e5 : (strip_alerts env).resp2 = strip_alert env.resp2 := rfl
  rw [e1, e2, e4, e5, send_recv_strip env.resp1 h1,
    send_recv_strip env.resp2 h2]
  cases hr1 : send_recv env.resp1 with
  | error e => rfl
  | ok resp =>
    cases hr2 : send_recv env.resp2 with
    | error e2 => simp [Except.map, strip_alert]
    | ok resp2 => simp [Except.map, strip_alert]

theorem hs_do_12_req_strip (env : Env) (fz : Option (Nat → Bytes)) (st : HS)
    (h3 : warn_only env.resp3 = true) :
    hs_do_12_req (strip_alerts env) fz st = hs_do_12_req env fz st := by
  unfold hs_do_12_req
  have e6 : (strip_alerts env).resp3 = strip_alert env.resp3 := rfl
  rw [e6, send_recv_strip env.resp3 h3]
  cases hr3 : send_recv env.resp3 with
  | error e => rfl
  | ok resp => simp [Except.map, strip_alert]

theorem do_12_strip (env : Env) (fz : Option (Nat → Bytes)) (st : HS)
    (h1 : warn_only env.resp1 = true) (h2 : warn_only env.resp2 = true)
    (h3 : warn_only env.resp3 = true) :
    do_12 (strip_alerts env) fz st = do_12 env fz st := by
  unfold do_12 with_socket_ctx
  simp only [hs_do_12_strip env fz _ h1 h2, hs_do_12_req_strip env fz _ h3]

theorem do_12_resume_strip (env : Env) (tk : TicketInput)
    (fz : Option (Nat → Bytes)) (st : HS)
    (h1 : warn_only env.resp1 = true) (h2 : warn_only env.resp2 = true)
    (h3 : warn_only env.resp3 = true) :
    do_12_resume (strip_alerts env) tk fz st = do_12_resume env tk fz st := by
  unfold do_12_resume with_socket_ctx
  simp only [hs_do_12_resume_strip env tk fz _ h1 h2,
    hs_do_12_req_strip env fz _ h3]

/-- C5: when every alert the server sends is WARNING-level, `send_recv`
does not raise on it (given the round trip itself did not fail at socket
level) and each public operation produces exactly the same outcome and
final state as the run in which no alert was received at all. -/
theorem warning_alert_transparent (env : Env) (tk : TicketInput)
    (fz : Option (Nat → Bytes)) (st : HS)
    (h1 : warn_only env.resp1 = true) (h2 : warn_only env.resp2 = true)
    (h3 : warn_only env.resp3 = true) :
    (∀ r : Resp, warn_only r = true → r.sockErr = false → send_recv r = .ok r) ∧
    do_12 env fz st = do_12 (strip_alerts env) fz st ∧
    do_12_resume env tk fz st = do_12_resume (strip_alerts env) tk fz st :=
  ⟨fun r hw hs => send_recv_warn_ok r hs hw,
   (do_12_strip env fz st h1 h2 h3).symm,
   (do_12_resume_strip env tk fz st h1 h2 h3).symm⟩

/-- Oracle of a well-behaved run in which the server attaches WARNING
alerts to its flights: certificate present, CCS present, HTTP 200. -/
def envWarn : Env :=
  { connOk := true,
    resp1 := { sockErr := false, alert := some ⟨1, 10⟩,
               certData := some "CERT", hasCCS := true, record := none },
    warnAlertSendOk := true, ccsSendOk := true,
    resp2 := { sockErr := false, alert := some ⟨1, 0⟩, certData := none,
               hasCCS := false, record := none },
    resp3 := { sockErr := false, alert := none, certData := none,
               hasCCS := false, record := some "HTTP/1.1 200 OK" } }

/-- Closed instance of `warning_alert_transparent` at `envWarn`: the run
with WARNING alerts equals the alert-free run, and both succeed. -/
theorem warning_alert_transparent_witness :
    warn_only envWarn.resp1 = true ∧
    do_12 envWarn none initHS = do_12 (strip_alerts envWarn) none initHS ∧
    (do_12 envWarn none initHS).1 = .ok true := by
  have h := warning_alert_transparent envWarn (.str "t") none initHS rfl rfl rfl
  exact ⟨rfl, h.2.1, rfl⟩

end TlsHandshakeSpec
